import Mathlib

/-!
# Verification of the signal402-mcp payment / session core

A shallow embedding of the payment-guarded fetch cycle (`src/client.ts`),
the delegated-session manager (`src/session.ts`) and the canonical signing
primitives of the signal402-mcp repository, together with proofs of the
behavioural properties stated in its specification.

Modelling conventions:
* JavaScript numbers are modelled as exact rationals (`ℚ`); all values the
  program manipulates (micro-USD amounts, USD caps) are exactly
  representable in the double range, so rational arithmetic is the
  observable semantics.
* Side inputs of impure code (`Date.now()`, `crypto.randomUUID()`, random
  keypair generation, HTTP responses) become explicit parameters or fields
  of an environment record.
* The filesystem-persisted session file becomes an explicit
  `Option SessionData` store value threaded through calls.
* Network activity is recorded as an explicit trace (`List NetCall`, or a
  signer-call counter for the payment client) so "zero network calls"
  claims are statements about the trace.
-/

namespace Signal402

/-! ## Hex helpers (`bytesToHex`, `hexToBytes` in src/session.ts) -/

/-- One lowercase hex digit, as produced by JavaScript `b.toString(16)`. -/
def hexDigit (n : Nat) : Char :=
  if n < 10 then Char.ofNat (48 + n) else Char.ofNat (87 + n)

/-- `b.toString(16).padStart(2, '0')` for a byte value. -/
def byteToHex (b : Nat) : String :=
  String.mk [hexDigit (b / 16 % 16), hexDigit (b % 16)]

/-- `bytesToHex` from src/session.ts: map each byte to two lowercase hex
digits and concatenate. Bytes are modelled as `Nat` values `< 256`. -/
def bytesToHex : List Nat → String
  | [] => ""
  | b :: bs => byteToHex b ++ bytesToHex bs

/-- Value of a single hex digit character (`parseInt(·, 16)` semantics on
well-formed input). -/
def hexCharVal (c : Char) : Nat :=
  if 48 ≤ c.toNat ∧ c.toNat ≤ 57 then c.toNat - 48
  else if 97 ≤ c.toNat ∧ c.toNat ≤ 102 then c.toNat - 87
  else if 65 ≤ c.toNat ∧ c.toNat ≤ 70 then c.toNat - 55
  else 0

/-- Consume hex characters two at a time (a trailing odd character is
dropped, as in the source's `clean.length / 2` loop). -/
def hexPairsToBytes : List Char → List Nat
  | c1 :: c2 :: rest => (16 * hexCharVal c1 + hexCharVal c2) :: hexPairsToBytes rest
  | _ => []

/-- `hexToBytes` from src/session.ts: strip an optional `0x` prefix and
parse byte pairs. -/
def hexToBytes (hex : String) : List Nat :=
  let clean := if hex.startsWith "0x" then hex.drop 2 else hex
  hexPairsToBytes clean.toList

/-! ## Decimal rendering of JavaScript numbers

`costUsd.toFixed(4)` and the template interpolation of the cap
(`${_currentMaxCost}`) are modelled on exact rationals.  For the
non-negative, decimally-representable values the program handles these
agree with the observable output of the JavaScript built-ins. -/

/-- Zero-pad the decimal rendering of `n` on the left to width `w`. -/
def padLeftZeros (w : Nat) (n : Nat) : String :=
  let s := toString n
  String.mk (List.replicate (w - s.length) '0') ++ s

/-- `x.toFixed(4)` for a non-negative rational `x = num/den`: round
`x·10⁴` to the nearest integer (half away from zero, computed as
`⌊(2·num·10⁴ + den) / (2·den)⌋` on the reduced fraction) and print with
exactly four fractional digits. -/
def toFixed4 (q : ℚ) : String :=
  let n : Nat := (2 * q.num.toNat * 10000 + q.den) / (2 * q.den)
  toString (n / 10000) ++ "." ++ padLeftZeros 4 (n % 10000)

/-- Smallest `k ≤ fuel` with `den ∣ pow10·10ᵏ` (fuel-bounded): the number
of decimal digits needed after the point. -/
def decExpAux : Nat → Nat → Nat → Nat
  | 0, _, _ => 0
  | fuel + 1, pow10, den =>
      if pow10 % den = 0 then 0 else decExpAux fuel (pow10 * 10) den + 1

/-- JavaScript `Number`-to-string for a non-negative decimal rational:
shortest decimal expansion, no trailing zeros (`${0.0001}` = `"0.0001"`,
`${5}` = `"5"`). -/
def jsNumToString (q : ℚ) : String :=
  let k := decExpAux 31 1 q.den
  let m : Nat := q.num.toNat * 10 ^ k / q.den
  if k = 0 then toString m
  else toString (m / 10 ^ k) ++ "." ++ padLeftZeros k (m % 10 ^ k)

/-! ## Payment client (src/client.ts)

The guard hook `onBeforePaymentCreation` and the cap variable
`_currentMaxCost` are translated from src/client.ts.  The surrounding
402-handling loop lives in the external `@x402/fetch` SDK
(`wrapFetchWithPayment`); it is modelled from the spec's §4.4 description
of the payment-guarded fetch cycle. -/

/-- One payment requirement from a 402 body
(`{ scheme, maxAmountRequired, asset, network, payTo }`).
`maxAmountRequired` is an integer amount in the asset's smallest unit. -/
structure PaymentRequirements where
  scheme : String
  maxAmountRequired : Nat
  asset : String
  network : String
  payTo : String
deriving DecidableEq, Repr

/-- An HTTP response, reduced to the fields the payment client inspects. -/
structure Resp where
  status : Nat
  body : String
deriving DecidableEq, Repr

/-- The abort message template of the guard hook in src/client.ts. -/
def guardReason (costUsd maxCost : ℚ) : String :=
  "Service costs $" ++ toFixed4 costUsd ++
    " per request, exceeds max_cost of $" ++ jsNumToString maxCost ++
    ". Increase max_cost or choose a cheaper service."

/-- The `onBeforePaymentCreation` hook from src/client.ts: if a cap is
set and `Number(amount) / 1e6` exceeds it, return an abort reason;
otherwise let the payment proceed. -/
def onBeforePaymentCreation (currentMaxCost : Option ℚ)
    (selected : PaymentRequirements) : Option String :=
  match currentMaxCost with
  | none => none
  | some maxCost =>
      let costUsd : ℚ := (selected.maxAmountRequired : ℚ) / 1000000
      if maxCost < costUsd then some (guardReason costUsd maxCost) else none

/-- Outcome of one payment-guarded fetch. -/
inductive PayOutcome where
  /-- The (first or retried) response handed back to the caller. -/
  | ok (r : Resp)
  /-- The guard hook aborted the payment before any signing. -/
  | aborted (reason : String)
  /-- No accepted scheme is supported. -/
  | unsupportedScheme
  /-- The underlying fetch threw (network/transport failure). -/
  | threw
deriving DecidableEq, Repr

/-- Environment of one payment-guarded fetch: the response to the plain
send, the parsed `accepts` list of its 402 body, and the response to the
single retry. -/
structure PayEnv where
  netFail : Bool
  firstResponse : Resp
  accepts : List PaymentRequirements
  retriedResponse : Resp
deriving DecidableEq, Repr

/-- Modelled from the spec: the `wrapFetchWithPayment` cycle of the
external `@x402/fetch` SDK (§4.4) — pass non-402 responses through
untouched, select the first supported ("exact") scheme, run the
registered `onBeforePaymentCreation` hook (translated above from
src/client.ts), and only when it does not abort obtain one payment
signature and retry once.  The second component counts calls to the
delegated signer / custody gateway. -/
def payFetch (env : PayEnv) (currentMaxCost : Option ℚ) : PayOutcome × Nat :=
  if env.netFail then (.threw, 0)
  else if env.firstResponse.status ≠ 402 then (.ok env.firstResponse, 0)
  else
    match env.accepts.find? (fun r => r.scheme = "exact") with
    | none => (.unsupportedScheme, 0)
    | some req =>
        match onBeforePaymentCreation currentMaxCost req with
        | some reason => (.aborted reason, 0)
        | none => (.ok env.retriedResponse, 1)

/-- `x402Fetch` from src/client.ts with the module-level `_currentMaxCost`
made explicit: the call stores its `opts.maxCostUsd` into the shared cap
variable, runs the wrapped fetch (whose guard hook reads that variable),
and the `finally` block resets the variable to `undefined` whether the
fetch returned or threw.  Result: (outcome, signer-call count) and the
final value of `_currentMaxCost`. -/
def x402Fetch (env : PayEnv) (maxCostUsd : Option ℚ) (_s0 : Option ℚ) :
    (PayOutcome × Nat) × Option ℚ :=
  (payFetch env maxCostUsd, none)

/-! ### Interleaving semantics of the shared cap variable

Each `x402Fetch` call performs three accesses to the module-level
`_currentMaxCost`: the initial store of its own cap, the guard hook's
read, and the `finally` reset.  Because the wrapped fetch awaits network
responses between the store and the read, concurrent calls interleave
these accesses arbitrarily. -/

/-- One atomic access of a request to `_currentMaxCost`. -/
inductive GStep where
  /-- `_currentMaxCost = opts?.maxCostUsd` at call entry. -/
  | set
  /-- the guard hook reads `_currentMaxCost`. -/
  | guard
  /-- the `finally` reset to `undefined`. -/
  | reset
deriving DecidableEq, Repr

/-- The access sequence of one request, in program order. -/
def stepsOf (i : Nat) : List (Nat × GStep) :=
  [(i, .set), (i, .guard), (i, .reset)]

/-- Run a schedule of accesses over the shared cap variable; `caps i` is
request `i`'s own `maxCostUsd` argument.  Returns, in order, the cap each
request's guard hook observed. -/
def runSched (caps : Nat → Option ℚ) :
    List (Nat × GStep) → Option ℚ → List (Nat × Option ℚ)
  | [], _ => []
  | (i, .set) :: rest, _ => runSched caps rest (caps i)
  | (i, .guard) :: rest, s => (i, s) :: runSched caps rest s
  | (_, .reset) :: rest, _ => runSched caps rest none

/-! ## Session manager (src/session.ts) -/

/-- ASCII lowercasing of one character (JavaScript `toLowerCase()` on the
ASCII range, which covers the hex addresses the program lowercases). -/
def charToLower (c : Char) : Char :=
  if 65 ≤ c.toNat ∧ c.toNat ≤ 90 then Char.ofNat (c.toNat + 32) else c

/-- `address.toLowerCase()` on ASCII strings. -/
def strToLower (s : String) : String :=
  String.mk (s.toList.map charToLower)

/-- The persisted session record (`SessionData` in src/session.ts and the
session file's JSON shape). `expiresAt` is unix milliseconds. -/
structure SessionData where
  sessionId : String
  address : String
  sessionPrivateKey : String
  sessionPublicKey : String
  expiresAt : Nat
  createdAt : String
deriving DecidableEq, Repr

/-- Join lines with `'\n'`, as JavaScript `array.join('\n')` does. -/
def joinLines : List String → String
  | [] => ""
  | [l] => l
  | l :: ls => l ++ "\n" ++ joinLines ls

/-- `constructSiweMessage` from src/session.ts.  `issuedAt` is the
`new Date().toISOString()` side input made explicit. -/
def constructSiweMessage (address nonce sessionPubKey expirationTime
    issuedAt : String) : String :=
  let domain := "clara-proxy.bflynn-me.workers.dev"
  let uri := "https://" ++ domain
  let chainId : Nat := 8453
  let statement := "Delegate signing authority to session key: " ++ sessionPubKey
  joinLines [
    domain ++ " wants you to sign in with your Ethereum account:",
    address,
    "",
    statement,
    "",
    "URI: " ++ uri,
    "Version: 1",
    "Chain ID: " ++ toString chainId,
    "Nonce: " ++ nonce,
    "Issued At: " ++ issuedAt,
    "Expiration Time: " ++ expirationTime]

/-- JavaScript `a || b` over two optional strings followed by a truthiness
check: the first present, non-empty string, if any
(`signData.signature || signData.result`). -/
def firstTruthy (a b : Option String) : Option String :=
  match a with
  | some s =>
      if ¬ s.isEmpty then some s
      else
        match b with
        | some t => if t.isEmpty then none else some t
        | none => none
  | none =>
      match b with
      | some t => if t.isEmpty then none else some t
      | none => none

/-- Response of `GET /auth/nonce`. -/
structure NonceResp where
  ok : Bool
  status : Nat
  nonce : String
deriving DecidableEq, Repr

/-- Response of the bootstrap `POST /api/v1/wallets/:id/sign-raw`. -/
structure SignResp where
  ok : Bool
  status : Nat
  errText : String
  signature : Option String
  result : Option String
deriving DecidableEq, Repr

/-- Response of `POST /auth/session`. -/
structure SessionResp where
  ok : Bool
  status : Nat
  errBody : String
  sessionId : String
  expiresAt : Nat
deriving DecidableEq, Repr

/-- Environment of one establishment attempt: the three network responses
and the impure side inputs (clock, ISO renderings, fresh keypair as hex). -/
structure SessionEnv where
  nonceResp : NonceResp
  keyPriv : String
  keyPub : String
  signResp : SignResp
  sessionResp : SessionResp
  now : Nat
  isoNow : String
  isoExpiration : String
deriving DecidableEq, Repr

/-- The network calls src/session.ts can make, in the order issued. -/
inductive NetCall where
  | getNonce
  | signRaw
  | createSession
deriving DecidableEq, Repr

/-- Result of a session operation: the value or thrown error, the network
trace, and the record written to the session file (`none` = no write). -/
structure SessionResult where
  outcome : Except String SessionData
  calls : List NetCall
  written : Option SessionData
deriving Repr

/-- `establishSession` from src/session.ts: fetch a nonce, generate the
keypair, build the SIWE message, obtain its signature via `sign-raw`,
create the session, persist and return the new record.  Each failure is
thrown exactly as in the source; the SIWE hash sent to `sign-raw` is the
EIP-191 hash of `siweMessage` (not inspected by any claim, so the hash
function itself stays abstract). -/
def establishSession (env : SessionEnv) (_walletId address : String) :
    SessionResult :=
  if ¬ env.nonceResp.ok then
    { outcome := .error ("Failed to get nonce: " ++ toString env.nonceResp.status),
      calls := [.getNonce], written := none }
  else
    let nonce := env.nonceResp.nonce
    let sessionPubKey := env.keyPub
    let expirationTime := env.isoExpiration
    let _siweMessage :=
      constructSiweMessage address nonce sessionPubKey expirationTime env.isoNow
    if ¬ env.signResp.ok then
      { outcome := .error ("sign-raw failed: " ++ toString env.signResp.status
          ++ " — " ++ env.signResp.errText),
        calls := [.getNonce, .signRaw], written := none }
    else
      match firstTruthy env.signResp.signature env.signResp.result with
      | none =>
          { outcome := .error "No signature in sign-raw response",
            calls := [.getNonce, .signRaw], written := none }
      | some _siweSignature =>
          if ¬ env.sessionResp.ok then
            { outcome := .error ("Session creation failed: "
                ++ toString env.sessionResp.status ++ " — " ++ env.sessionResp.errBody),
              calls := [.getNonce, .signRaw, .createSession], written := none }
          else
            let session : SessionData :=
              { sessionId := env.sessionResp.sessionId,
                address := strToLower address,
                sessionPrivateKey := env.keyPriv,
                sessionPublicKey := sessionPubKey,
                expiresAt := env.sessionResp.expiresAt,
                createdAt := env.isoNow }
            { outcome := .ok session,
              calls := [.getNonce, .signRaw, .createSession],
              written := some session }

/-- The renewal buffer of src/session.ts: `5 * 60 * 1000` ms. -/
def bufferMs : Nat := 5 * 60 * 1000

/-- `getSession` from src/session.ts: reuse the persisted record while
`expiresAt > Date.now() + bufferMs`, otherwise re-establish.  `store` is
the content of the session file (`none` when the file does not exist). -/
def getSession (env : SessionEnv) (store : Option SessionData)
    (walletId address : String) : SessionResult :=
  match store with
  | some session =>
      if env.now + bufferMs < session.expiresAt then
        { outcome := .ok session, calls := [], written := none }
      else establishSession env walletId address
  | none => establishSession env walletId address

/-- The session-file content after an operation: a written record
replaces the previous file wholesale, otherwise the file is unchanged. -/
def applyWrite (store : Option SessionData) (r : SessionResult) :
    Option SessionData :=
  match r.written with
  | some s => some s
  | none => store

/-! ## Per-request signing (src/session.ts `signRequest`)

The two cryptographic primitives — SHA-256 (via Web Crypto) and the
secp256k1 ECDSA core of `@noble/secp256k1` — are external to the
repository and enter the model as function parameters; everything the
claims inspect (canonical message framing, hashing order, low-S
normalization, signature encoding, header assembly) is translated from
the source. -/

/-- The order `n` of the secp256k1 group (`@noble/secp256k1`'s curve
constant, against which the `lowS` option normalizes `s`). -/
def secpN : Nat :=
  115792089237316195423570985008687907852837564279074904382605163141518161494337

/-- An ECDSA signature before encoding: `r`, `s` and the recovery bit. -/
structure RawSig where
  r : Nat
  s : Nat
  recovery : Nat
deriving DecidableEq, Repr

/-- Modelled from the spec: `@noble/secp256k1`'s `lowS: true` option —
replace a high `s` by `n - s` and flip the recovery bit, so the returned
`s` never exceeds `n/2` (low-S normalization against malleability). -/
def normalizeLowS (sig : RawSig) : RawSig :=
  if secpN / 2 < sig.s then
    { r := sig.r, s := secpN - sig.s, recovery := 1 - sig.recovery }
  else sig

/-- The external primitives `signRequest` calls: `sha256hex` (Web Crypto
SHA-256, hex output) and the raw ECDSA signing core applied to the hash
bytes and private-key bytes. -/
structure SignPrims where
  sha256hex : String → String
  ecdsaSign : List Nat → List Nat → RawSig

/-- `secp.signAsync(msgHashBytes, privKeyBytes, { lowS: true })`:
the ECDSA core followed by low-S normalization. -/
def signAsyncLowS (p : SignPrims) (msgHashBytes privKeyBytes : List Nat) :
    RawSig :=
  normalizeLowS (p.ecdsaSign msgHashBytes privKeyBytes)

/-- Big-endian byte encoding of `n` into exactly `len` bytes
(`toCompactRawBytes` writes `r` and `s` this way, 32 bytes each). -/
def natToBytesBE : Nat → Nat → List Nat
  | 0, _ => []
  | len + 1, n => natToBytesBE len (n / 256) ++ [n % 256]

/-- The 65-byte signature encoding of src/session.ts: `r(32) ∥ s(32) ∥
recovery + 27`, hex with a `0x` prefix. -/
def encodeFullSig (sig : RawSig) : String :=
  "0x" ++ bytesToHex (natToBytesBE 32 sig.r ++ natToBytesBE 32 sig.s
    ++ [sig.recovery + 27])

/-- The canonical message of src/session.ts `signRequest`: six lines
joined by `'\n'`. -/
def canonicalMessage (method path bodyDigest : String) (timestamp : Nat)
    (nonce : String) : String :=
  joinLines [
    "CLARA-REQUEST-SIG-V1",
    method,
    path,
    "sha256:" ++ bodyDigest,
    toString timestamp,
    nonce]

/-- `signRequest` from src/session.ts with the impure inputs explicit
(`nonce` = `crypto.randomUUID()`, `timestamp` = `Math.floor(Date.now() /
1000)`): digest the body, build the canonical message, SHA-256 it, sign
the hash bytes with the session private key (low-S), and return the five
identification headers. -/
def signRequest (p : SignPrims) (session : SessionData)
    (method path body : String) (nonce : String) (timestamp : Nat) :
    List (String × String) :=
  let bodyDigest := p.sha256hex body
  let msg := canonicalMessage method path bodyDigest timestamp nonce
  let msgHash := p.sha256hex msg
  let msgHashBytes := hexToBytes msgHash
  let privKeyBytes := hexToBytes session.sessionPrivateKey
  let sig := signAsyncLowS p msgHashBytes privKeyBytes
  [("X-Clara-Address", session.address),
   ("X-Clara-Session", session.sessionId),
   ("X-Clara-Signature", encodeFullSig sig),
   ("X-Clara-Timestamp", toString timestamp),
   ("X-Clara-Nonce", nonce)]

/-! ## Spec-side renderings (for refinement claims)

These two definitions are written from the specification's words alone
(external-interface section and §4.2), to be compared with the
source-derived definitions above. -/

/-- Modelled from the spec: the SIWE delegation template of the
external-interface section, written as direct concatenation in the
spec's fixed line order (domain header line, address, blank line,
statement, blank line, URI, Version, Chain ID, Nonce, Issued At,
Expiration Time). -/
def siweMessageSpec (domain address statement uri : String)
    (chainId : Nat) (nonce issuedAt expirationTime : String) : String :=
  domain ++ " wants you to sign in with your Ethereum account:" ++ "\n" ++
  address ++ "\n" ++
  "\n" ++
  statement ++ "\n" ++
  "\n" ++
  "URI: " ++ uri ++ "\n" ++
  "Version: 1" ++ "\n" ++
  "Chain ID: " ++ toString chainId ++ "\n" ++
  "Nonce: " ++ nonce ++ "\n" ++
  "Issued At: " ++ issuedAt ++ "\n" ++
  "Expiration Time: " ++ expirationTime

/-- Modelled from the spec: the per-request canonical authentication
message — exactly six newline-joined lines: fixed protocol tag, HTTP
method, path, `sha256:` digest line, unix-seconds timestamp, nonce. -/
def canonicalMessageSpec (protocolTag method path bodyDigestHex
    timestampStr nonce : String) : String :=
  protocolTag ++ "\n" ++ method ++ "\n" ++ path ++ "\n" ++
  "sha256:" ++ bodyDigestHex ++ "\n" ++ timestampStr ++ "\n" ++ nonce

/-! ## Derived values and concrete instances used by the theorems -/

/-- The record `establishSession` persists and returns on success. -/
def newSessionOf (env : SessionEnv) (address : String) : SessionData :=
  { sessionId := env.sessionResp.sessionId,
    address := strToLower address,
    sessionPrivateKey := env.keyPriv,
    sessionPublicKey := env.keyPub,
    expiresAt := env.sessionResp.expiresAt,
    createdAt := env.isoNow }

/-- The byte form of the SHA-256 hash `signRequest` signs. -/
def requestMsgHashBytes (p : SignPrims) (method path body nonce : String)
    (timestamp : Nat) : List Nat :=
  hexToBytes (p.sha256hex (canonicalMessage method path (p.sha256hex body)
    timestamp nonce))

/-- The raw ECDSA signature the signing core returns inside `signRequest`. -/
def requestRawSig (p : SignPrims) (session : SessionData)
    (method path body nonce : String) (timestamp : Nat) : RawSig :=
  p.ecdsaSign (requestMsgHashBytes p method path body nonce timestamp)
    (hexToBytes session.sessionPrivateKey)

/-- The low-S-normalized signature `signRequest` encodes into its header. -/
def requestSig (p : SignPrims) (session : SessionData)
    (method path body nonce : String) (timestamp : Nat) : RawSig :=
  normalizeLowS (requestRawSig p session method path body nonce timestamp)

/-- Scenario A's environment: a 402 whose only accepted scheme is an
"exact" requirement of 1,000,000 units of a 6-decimal asset ($1.00). -/
def envC1 : PayEnv :=
  { netFail := false,
    firstResponse := { status := 402, body := "{}" },
    accepts := [{ scheme := "exact", maxAmountRequired := 1000000,
                  asset := "USDC", network := "base", payTo := "0xabc" }],
    retriedResponse := { status := 200, body := "ok" } }

/-- A plain 200 response environment (Scenario C). -/
def envC4 : PayEnv :=
  { netFail := false,
    firstResponse := { status := 200, body := "hello" },
    accepts := [],
    retriedResponse := { status := 500, body := "" } }

/-- Two concurrent requests: request 1 carries cap $0.0001, request 2
carries cap $5. -/
def capsC2 : Nat → Option ℚ := fun i => if i = 1 then some (1 / 10000) else some 5

/-- An interleaving in which request 2's initial store lands between
request 1's store and request 1's guard read. -/
def schedC2 : List (Nat × GStep) :=
  [(1, .set), (2, .set), (1, .guard), (1, .reset), (2, .guard), (2, .reset)]

/-- A $1.00 "exact" requirement used to compare the two guard decisions. -/
def reqC2 : PaymentRequirements :=
  { scheme := "exact", maxAmountRequired := 1000000,
    asset := "USDC", network := "base", payTo := "0xabc" }

/-- A fresh-establishment environment whose session endpoint answers with
`expiresAt = 0`, far in the past of `now`. -/
def envC3 : SessionEnv :=
  { nonceResp := { ok := true, status := 200, nonce := "n-1" },
    keyPriv := "aa", keyPub := "04bb",
    signResp := { ok := true, status := 200, errText := "",
                  signature := some "0xs", result := none },
    sessionResp := { ok := true, status := 200, errBody := "",
                     sessionId := "sess-1", expiresAt := 0 },
    now := 1000000000000,
    isoNow := "2026-01-01T00:00:00.000Z",
    isoExpiration := "2026-01-02T00:00:00.000Z" }

/-- An environment whose clock reads 1000 ms; its network fields are
never reached on the reuse path. -/
def envC5 : SessionEnv :=
  { nonceResp := { ok := false, status := 500, nonce := "" },
    keyPriv := "", keyPub := "",
    signResp := { ok := false, status := 500, errText := "",
                  signature := none, result := none },
    sessionResp := { ok := false, status := 500, errBody := "",
                     sessionId := "", expiresAt := 0 },
    now := 1000,
    isoNow := "t0", isoExpiration := "t1" }

/-- A persisted session valid far beyond the buffer at `envC5.now`. -/
def sC5 : SessionData :=
  { sessionId := "sess-5", address := "0xab",
    sessionPrivateKey := "aa", sessionPublicKey := "04bb",
    expiresAt := 10000000, createdAt := "t" }

/-- A fully successful establishment environment. -/
def envC6 : SessionEnv :=
  { nonceResp := { ok := true, status := 200, nonce := "n-6" },
    keyPriv := "cc", keyPub := "04dd",
    signResp := { ok := true, status := 200, errText := "",
                  signature := none, result := some "0xr" },
    sessionResp := { ok := true, status := 200, errBody := "",
                     sessionId := "sess-6", expiresAt := 2000000000000 },
    now := 1000000000000,
    isoNow := "2026-02-01T00:00:00.000Z",
    isoExpiration := "2026-02-02T00:00:00.000Z" }

/-- A persisted session already expired at `envC6.now`. -/
def sC6 : SessionData :=
  { sessionId := "sess-old", address := "0xab",
    sessionPrivateKey := "ee", sessionPublicKey := "04ff",
    expiresAt := 999999999999, createdAt := "t" }

/-- Concrete signing primitives for evaluating `signRequest`. -/
def primsC9 : SignPrims :=
  { sha256hex := fun _ => "00ab",
    ecdsaSign := fun _ _ => { r := 1, s := 2, recovery := 0 } }

/-- A concrete session record for evaluating `signRequest`. -/
def sessC9 : SessionData :=
  { sessionId := "sess-9", address := "0xab",
    sessionPrivateKey := "aa", sessionPublicKey := "04bb",
    expiresAt := 10, createdAt := "t" }

/-! ## Helper lemmas -/

/-- Running one request's three accesses without interleaving: its guard
observes its own cap, and the continuation starts from a reset variable. -/
lemma runSched_block (caps : Nat → Option ℚ) (i : Nat)
    (rest : List (Nat × GStep)) (s0 : Option ℚ) :
    runSched caps (stepsOf i ++ rest) s0 = (i, caps i) :: runSched caps rest none := by
  simp [stepsOf, runSched]

/-- A successful establishment issues exactly the three-call trace and
returns the server-supplied expiry. -/
lemma establish_ok_shape (env : SessionEnv) (w a : String) (r : SessionData)
    (h : (establishSession env w a).outcome = .ok r) :
    (establishSession env w a).calls = [.getNonce, .signRaw, .createSession] ∧
    r.expiresAt = env.sessionResp.expiresAt := by
  unfold establishSession at h ⊢
  by_cases hn : env.nonceResp.ok <;> simp [hn] at h ⊢
  by_cases hs : env.signResp.ok <;> simp [hs] at h ⊢
  cases hft : firstTruthy env.signResp.signature env.signResp.result <;>
    simp [hft] at h ⊢
  by_cases hc : env.sessionResp.ok <;> simp [hc] at h ⊢
  cases h
  rfl

lemma natToBytesBE_length (len n : Nat) : (natToBytesBE len n).length = len := by
  induction len generalizing n with
  | zero => rfl
  | succ k ih => simp [natToBytesBE, ih]

lemma byteToHex_length (b : Nat) : (byteToHex b).length = 2 := rfl

lemma bytesToHex_length (bs : List Nat) :
    (bytesToHex bs).length = 2 * bs.length := by
  induction bs with
  | nil => rfl
  | cons b rest ih =>
      simp [bytesToHex, String.length_append, byteToHex_length, ih]
      omega

/-- Low-S normalization really is low: the normalized `s` is at most
`n/2` whenever the raw `s` is in the group-order range. -/
lemma normalizeLowS_le (sig : RawSig) (h : sig.s < secpN) :
    (normalizeLowS sig).s ≤ secpN / 2 := by
  unfold normalizeLowS at *
  unfold secpN at *
  split <;> simp_all <;> omega

/-! ## Claim theorems -/

/-- C1: whenever the selected requirement's computed cost
(`maxAmountRequired / 10⁶`) strictly exceeds the caller-supplied cap, the
payment flow aborts with the spending-cap message carrying the formatted
cost and the cap, and zero calls reach the signer / custody gateway. -/
theorem guard_before_sign (env : PayEnv) (cap : ℚ) (req : PaymentRequirements)
    (hnet : env.netFail = false)
    (h402 : env.firstResponse.status = 402)
    (hsel : env.accepts.find? (fun r => r.scheme = "exact") = some req)
    (hcost : cap < (req.maxAmountRequired : ℚ) / 1000000) :
    payFetch env (some cap) =
      (.aborted (guardReason ((req.maxAmountRequired : ℚ) / 1000000) cap), 0) := by
  simp [payFetch, hnet, h402, hsel, onBeforePaymentCreation, hcost]

/-- C1 witness (Scenario A): cap $0.0001 against a 1,000,000-unit
6-decimal requirement aborts with reported cost "$1.0000" and no signer
call. -/
theorem guard_before_sign_witness :
    payFetch envC1 (some (1 / 10000)) =
      (.aborted ("Service costs $1.0000 per request, exceeds max_cost of $0.0001. Increase max_cost or choose a cheaper service."), 0) := by
  rw [guard_before_sign envC1 (1 / 10000)
    { scheme := "exact", maxAmountRequired := 1000000,
      asset := "USDC", network := "base", payTo := "0xabc" }
    rfl rfl rfl (by norm_num)]
  have e1 : ((1000000 : ℕ) : ℚ) / 1000000 = Rat.divInt 1000000 1000000 := by
    rw [Rat.divInt_eq_div]; norm_num
  have e2 : (1 : ℚ) / 10000 = Rat.divInt 1 10000 := by
    rw [Rat.divInt_eq_div]; norm_num
  rw [e1, e2]
  decide

/-- C2 counterexample: a legal interleaving of two requests (each
request's own accesses stay in program order) in which request 1's guard
observes request 2's cap $5 instead of its own cap $0.0001 — and the two
caps decide a $1.00 requirement differently, so request 1's guard
decision did depend on request 2's cap. -/
theorem cap_bleed_counterexample :
    schedC2.filter (fun p => p.1 = 1) = stepsOf 1 ∧
    schedC2.filter (fun p => p.1 = 2) = stepsOf 2 ∧
    runSched capsC2 schedC2 none = [(1, some 5), (2, none)] ∧
    onBeforePaymentCreation (some 5) reqC2 = none ∧
    onBeforePaymentCreation (capsC2 1) reqC2 ≠ none := by
  refine ⟨by decide, by decide, ?_, ?_, ?_⟩
  · simp [schedC2, runSched, capsC2]
  · norm_num [onBeforePaymentCreation, reqC2]
  · norm_num [onBeforePaymentCreation, reqC2, capsC2]
    simp

/-- C2 as amended: the cap lives in the shared module-level
`_currentMaxCost`; when calls do not interleave (any sequence of whole
per-request access blocks), every request's guard observes exactly its
own cap — the bleed of the counterexample needs interleaving. -/
theorem cap_no_bleed_sequential (caps : Nat → Option ℚ)
    (ids : List Nat) (s0 : Option ℚ) :
    runSched caps (ids.flatMap stepsOf) s0 = ids.map (fun i => (i, caps i)) := by
  induction ids generalizing s0 with
  | nil => simp [runSched]
  | cons i rest ih => simp [List.flatMap_cons, runSched_block, ih]

/-- C3 counterexample: on the fresh-establishment path `getSession`
returns whatever `expiresAt` the session endpoint supplied — here `0`,
which does not exceed `now + bufferMs`. -/
theorem session_validity_counterexample :
    (getSession envC3 none "w-1" "0xAB").outcome =
      .ok { sessionId := "sess-1", address := "0xab",
            sessionPrivateKey := "aa", sessionPublicKey := "04bb",
            expiresAt := 0, createdAt := "2026-01-01T00:00:00.000Z" } ∧
    ¬ (envC3.now + bufferMs < (0 : Nat)) := by
  exact ⟨rfl, by decide⟩

/-- C3 as amended: a record returned by `getSession` satisfies
`expiresAt > now + bufferMs` on the persisted-reuse path (empty network
trace); on the fresh-establishment path its `expiresAt` is exactly the
server-supplied value, with no validity check. -/
theorem session_validity_amended (env : SessionEnv) (store : Option SessionData)
    (w a : String) (r : SessionData)
    (h : (getSession env store w a).outcome = .ok r) :
    ((getSession env store w a).calls = [] →
      env.now + bufferMs < r.expiresAt) ∧
    ((getSession env store w a).calls ≠ [] →
      r.expiresAt = env.sessionResp.expiresAt) := by
  cases store with
  | none =>
      have := establish_ok_shape env w a r (by simpa [getSession] using h)
      simp [getSession, this.1, this.2]
  | some s =>
      by_cases hv : env.now + bufferMs < s.expiresAt
      · have hr : s = r := by simpa [getSession, hv] using h
        subst hr
        simp [getSession, hv]
      · have := establish_ok_shape env w a r (by simpa [getSession, hv] using h)
        simp [getSession, hv, this.1, this.2]

/-- C3 amended, witness: on the concrete reuse instance the returned
record's expiry clears the buffer. -/
theorem session_validity_amended_witness :
    ((getSession envC5 (some sC5) "w" "0xAB").calls = [] →
      envC5.now + bufferMs < sC5.expiresAt) ∧
    ((getSession envC5 (some sC5) "w" "0xAB").calls ≠ [] →
      sC5.expiresAt = envC5.sessionResp.expiresAt) :=
  session_validity_amended envC5 (some sC5) "w" "0xAB" sC5 rfl

/-- C4: a response whose status is not 402 is returned unchanged, with
zero signer / custody calls, and the cap variable ends (and, started from
its quiescent `none`, stays) `undefined`. -/
theorem pass_through (env : PayEnv) (cap : Option ℚ)
    (hnet : env.netFail = false) (h : env.firstResponse.status ≠ 402) :
    x402Fetch env cap none = ((.ok env.firstResponse, 0), none) := by
  simp [x402Fetch, payFetch, hnet, h]

/-- C4 witness (Scenario C): a 200 response passes through verbatim with
no signer call. -/
theorem pass_through_witness :
    x402Fetch envC4 (some 5) none = ((.ok envC4.firstResponse, 0), none) :=
  pass_through envC4 (some 5) rfl (by decide)

/-- C5: a persisted session whose expiry clears the buffer is returned
unchanged with an empty network trace, and a second `getSession` against
the resulting store returns the identical session, again with zero
network calls. -/
theorem session_reuse (env : SessionEnv) (s : SessionData) (w a : String)
    (h : env.now + bufferMs < s.expiresAt) :
    getSession env (some s) w a = ⟨.ok s, [], none⟩ ∧
    getSession env (applyWrite (some s) (getSession env (some s) w a)) w a =
      ⟨.ok s, [], none⟩ := by
  have h1 : getSession env (some s) w a = ⟨.ok s, [], none⟩ := by
    simp [getSession, h]
  exact ⟨h1, by rw [h1]; exact h1⟩

/-- C5 witness: concrete reuse, twice, with empty traces. -/
theorem session_reuse_witness :
    getSession envC5 (some sC5) "w" "a" = ⟨.ok sC5, [], none⟩ ∧
    getSession envC5 (applyWrite (some sC5) (getSession envC5 (some sC5) "w" "a"))
      "w" "a" = ⟨.ok sC5, [], none⟩ :=
  session_reuse envC5 sC5 "w" "a" (by decide)

/-- C6: an expired (or within-buffer) persisted session triggers exactly
one establishment — the trace is exactly nonce fetch, then sign-raw, then
session create — and the new record is persisted (overwriting the old
one) and returned; no further calls occur. -/
theorem forced_renewal (env : SessionEnv) (s : SessionData) (w a : String)
    (sig : String)
    (hexp : s.expiresAt ≤ env.now + bufferMs)
    (hn : env.nonceResp.ok = true)
    (hs : env.signResp.ok = true)
    (hsig : firstTruthy env.signResp.signature env.signResp.result = some sig)
    (hc : env.sessionResp.ok = true) :
    getSession env (some s) w a =
      { outcome := .ok (newSessionOf env a),
        calls := [.getNonce, .signRaw, .createSession],
        written := some (newSessionOf env a) } := by
  have hnv : ¬ (env.now + bufferMs < s.expiresAt) := by omega
  simp [getSession, hnv, establishSession, hn, hs, hsig, hc, newSessionOf]

/-- C6 witness: a concrete expired session forces one full
establishment sequence. -/
theorem forced_renewal_witness :
    getSession envC6 (some sC6) "w" "0xAB" =
      { outcome := .ok (newSessionOf envC6 "0xAB"),
        calls := [.getNonce, .signRaw, .createSession],
        written := some (newSessionOf envC6 "0xAB") } :=
  forced_renewal envC6 sC6 "w" "0xAB" "0xr" (by decide) rfl rfl rfl rfl

/-- C7: the delegation message built for signing is exactly the fixed
SIWE template of the spec's external-interface section, with the
delegation statement and the fields in the fixed line order. -/
theorem siwe_message_format (address nonce pk expTime issuedAt : String) :
    constructSiweMessage address nonce pk expTime issuedAt =
      siweMessageSpec "clara-proxy.bflynn-me.workers.dev" address
        ("Delegate signing authority to session key: " ++ pk)
        "https://clara-proxy.bflynn-me.workers.dev" 8453 nonce issuedAt expTime := by
  simp [constructSiweMessage, siweMessageSpec, joinLines, String.append_assoc]
  rfl

/-- C8: `signRequest` builds exactly the six-line canonical message
(protocol tag, method, path, sha256 digest line, timestamp, nonce),
hashes it with SHA-256, signs the hash with the session private key, and
returns exactly the five identification headers. -/
theorem sign_request_format (p : SignPrims) (session : SessionData)
    (method path body nonce : String) (timestamp : Nat) :
    signRequest p session method path body nonce timestamp =
      [("X-Clara-Address", session.address),
       ("X-Clara-Session", session.sessionId),
       ("X-Clara-Signature", encodeFullSig (signAsyncLowS p
          (hexToBytes (p.sha256hex (canonicalMessageSpec "CLARA-REQUEST-SIG-V1"
            method path (p.sha256hex body) (toString timestamp) nonce)))
          (hexToBytes session.sessionPrivateKey))),
       ("X-Clara-Timestamp", toString timestamp),
       ("X-Clara-Nonce", nonce)] := by
  simp [signRequest, canonicalMessage, canonicalMessageSpec, joinLines,
    String.append_assoc]
  rfl

/-- C9: the signature header value is the hex encoding, `0x`-prefixed
(132 characters total), of the 65 bytes `r(32) ∥ s(32) ∥ recovery + 27`,
and its `s` component is low-S normalized. -/
theorem signature_encoding (p : SignPrims) (session : SessionData)
    (method path body nonce : String) (timestamp : Nat)
    (h : (requestRawSig p session method path body nonce timestamp).s < secpN) :
    (signRequest p session method path body nonce timestamp).get? 2 =
      some ("X-Clara-Signature",
        encodeFullSig (requestSig p session method path body nonce timestamp)) ∧
    encodeFullSig (requestSig p session method path body nonce timestamp) =
      "0x" ++ bytesToHex
        (natToBytesBE 32 (requestSig p session method path body nonce timestamp).r
          ++ natToBytesBE 32 (requestSig p session method path body nonce timestamp).s
          ++ [(requestSig p session method path body nonce timestamp).recovery + 27]) ∧
    (natToBytesBE 32 (requestSig p session method path body nonce timestamp).r
      ++ natToBytesBE 32 (requestSig p session method path body nonce timestamp).s
      ++ [(requestSig p session method path body nonce timestamp).recovery + 27]).length
        = 65 ∧
    (encodeFullSig (requestSig p session method path body nonce timestamp)).length
        = 132 ∧
    (requestSig p session method path body nonce timestamp).s ≤ secpN / 2 := by
  refine ⟨rfl, rfl, ?_, ?_, normalizeLowS_le _ h⟩
  · simp [natToBytesBE_length]
  · simp [encodeFullSig, String.length_append, bytesToHex_length,
      natToBytesBE_length]
    rfl

/-- C9 witness: concrete primitives and request, evaluated. -/
theorem signature_encoding_witness :
    (signRequest primsC9 sessC9 "POST" "/p" "{}" "uuid-1" 1700000000).get? 2 =
      some ("X-Clara-Signature",
        encodeFullSig (requestSig primsC9 sessC9 "POST" "/p" "{}" "uuid-1" 1700000000)) ∧
    encodeFullSig (requestSig primsC9 sessC9 "POST" "/p" "{}" "uuid-1" 1700000000) =
      "0x" ++ bytesToHex
        (natToBytesBE 32 (requestSig primsC9 sessC9 "POST" "/p" "{}" "uuid-1" 1700000000).r
          ++ natToBytesBE 32 (requestSig primsC9 sessC9 "POST" "/p" "{}" "uuid-1" 1700000000).s
          ++ [(requestSig primsC9 sessC9 "POST" "/p" "{}" "uuid-1" 1700000000).recovery + 27]) ∧
    (natToBytesBE 32 (requestSig primsC9 sessC9 "POST" "/p" "{}" "uuid-1" 1700000000).r
      ++ natToBytesBE 32 (requestSig primsC9 sessC9 "POST" "/p" "{}" "uuid-1" 1700000000).s
      ++ [(requestSig primsC9 sessC9 "POST" "/p" "{}" "uuid-1" 1700000000).recovery + 27]).length
        = 65 ∧
    (encodeFullSig (requestSig primsC9 sessC9 "POST" "/p" "{}" "uuid-1" 1700000000)).length
        = 132 ∧
    (requestSig primsC9 sessC9 "POST" "/p" "{}" "uuid-1" 1700000000).s ≤ secpN / 2 :=
  signature_encoding primsC9 sessC9 "POST" "/p" "{}" "uuid-1" 1700000000 (by decide)

/-- C10: every completed `x402Fetch` call — response or throw — leaves
the cap variable `undefined`; a subsequent call's guard depends only on
its own cap, and at the access level a completed request block hands the
continuation a reset variable. -/
theorem cap_reset_after_call :
    (∀ (env : PayEnv) (opts s0 : Option ℚ), (x402Fetch env opts s0).2 = none) ∧
    (∀ (env1 env2 : PayEnv) (opts1 opts2 s0 : Option ℚ),
      x402Fetch env2 opts2 (x402Fetch env1 opts1 s0).2 = (payFetch env2 opts2, none)) ∧
    (∀ (caps : Nat → Option ℚ) (i : Nat) (rest : List (Nat × GStep)) (s0 : Option ℚ),
      runSched caps (stepsOf i ++ rest) s0 = (i, caps i) :: runSched caps rest none) :=
  ⟨fun _ _ _ => rfl, fun _ _ _ _ _ => rfl, runSched_block⟩

end Signal402
